import Mathlib

/-!
Shallow embedding of the iPlug2 control layer (src/IGraphics/IControl.h and
src/IGraphics/Controls/IControls.h).  Doubles and float coordinates are
modelled as rationals; the stored callback objects (action function,
animation function, delegate, graphics context) are modelled by presence
flags, and the outward-visible calls a control makes on its owner are
modelled as explicit event traces returned next to the updated state.
-/

/-- Sentinel meaning "no linked parameter" (used throughout IControl.h). -/
def kNoParameter : Int := -1

/-- Sentinel meaning "no value index"; as an argument of SetDirty or ForValIdx
it addresses all values (the spec calls this sentinel kAllValues). -/
def kNoValIdx : Int := -1

/-- One entry of IControl::mVals: a linked parameter index (kNoParameter when
unlinked) and a normalized value. -/
structure ParamTuple where
  idx : Int
  value : Rat
  deriving DecidableEq

/-- Rectangle with left/top/right/bottom edges (IRECT of the repository,
fields L, T, R, B). -/
structure IRECT where
  L : Rat
  T : Rat
  R : Rat
  B : Rat
  deriving DecidableEq

/-- Outward-visible effects of a control on its surroundings: a parameter
change notification sent to the class implementing IEditorDelegate, or an
invocation of the control's attached action function. -/
inductive UIEvent where
  | notifyParam (paramIdx : Int) (value : Rat)
  | actionFunc
  deriving DecidableEq

/-- State of an IControl (the member variables of IControl.h that the claims
touch).  mActionFunc, mAnimationFunc, mDelegate and mGraphics hold function or
object pointers in the source; here a Bool records whether they are set. -/
structure IControlState where
  mTargetRECT : IRECT
  mVals : List ParamTuple
  mDirty : Bool
  mWantsMidi : Bool
  mActionFunc : Bool
  mAnimationFunc : Bool
  mAnimationStartTime : Rat
  mAnimationDuration : Int
  mDelegate : Bool
  mGraphics : Bool
  deriving DecidableEq

/-- NVals (IControl.h line 209): the number of values of the control. -/
def NVals (c : IControlState) : Nat := c.mVals.length

/-- Bounds-checked access to mVals at a (signed) value index. -/
def valAt (c : IControlState) (valIdx : Int) : Option ParamTuple :=
  if 0 ≤ valIdx then c.mVals.get? valIdx.toNat else none

/-- Modelled from the spec: IControl::GetParamIdx (body in IControl.cpp, which
is not under src/) returns the linked parameter index of the value at valIdx,
or kNoParameter when there is none (spec section 4.1). -/
def GetParamIdx (c : IControlState) (valIdx : Nat) : Int :=
  ((c.mVals.get? valIdx).map ParamTuple.idx).getD kNoParameter

/-- Modelled from the spec: IControl::GetValue (body in IControl.cpp, which is
not under src/) returns the normalized value stored at valIdx
(spec section 4.1). -/
def GetValue (c : IControlState) (valIdx : Nat) : Rat :=
  ((c.mVals.get? valIdx).map ParamTuple.value).getD 0

/-- ForValIdx (IControl.h lines 455-466): runs func for an individual value
index when valIdx > kNoValIdx, otherwise for every value index 0, 1, ...,
NVals-1 in ascending order.  The C++ member template is instantiated here at
the event-emitting functions used by SetDirty. -/
def ForValIdx (c : IControlState) (valIdx : Int) (func : Int → List UIEvent) :
    List UIEvent :=
  if kNoValIdx < valIdx then func valIdx
  else ((List.range (NVals c)).map (fun v => func (Int.ofNat v))).flatten

/-- Modelled from the spec: the per-value notification step of SetDirty
(IControl.cpp is not under src/).  When the value at valIdx is linked to a
parameter, the external owner is notified with the current normalized value;
otherwise nothing happens (spec section 4.2). -/
def NotifyParamIfLinked (c : IControlState) (valIdx : Int) : List UIEvent :=
  match valAt c valIdx with
  | some t => if kNoParameter < t.idx then [UIEvent.notifyParam t.idx t.value] else []
  | none => []

/-- Modelled from the spec: IControl::SetDirty (body in IControl.cpp, which is
not under src/).  It always sets the dirty flag (also stated by the doc
comment at IControl.h line 343); when triggerAction is true it notifies the
owner for each addressed linked value — via ForValIdx, so in ascending index
order for valIdx = kNoValIdx — and then invokes the attached action function
once, regardless of parameter linkage (spec section 4.2). -/
def SetDirty (c : IControlState) (triggerAction : Bool) (valIdx : Int) :
    IControlState × List UIEvent :=
  let c' : IControlState := { c with mDirty := true }
  (c',
   if triggerAction then
     ForValIdx c' valIdx (NotifyParamIfLinked c') ++
       (if c'.mActionFunc then [UIEvent.actionFunc] else [])
   else [])

/-- Modelled from the spec: the clamping helper used by SetValue (the
repository's Clip utility lives in IPlugUtilities.h, which is not under
src/); clamps x into the interval from lo to hi. -/
def Clip (x lo hi : Rat) : Rat := min (max x lo) hi

/-- Modelled from the spec: IControl::SetValue (body in IControl.cpp, which is
not under src/) clamps the value to [0,1] and stores it at valIdx; it does not
itself mark the control dirty and performs no notification
(spec section 4.1). -/
def SetValue (c : IControlState) (value : Rat) (valIdx : Int) : IControlState :=
  match valAt c valIdx with
  | some t =>
    { c with mVals := c.mVals.set valIdx.toNat { t with value := Clip value 0 1 } }
  | none => c

/-- Modelled from the spec: IControl::SetValueFromDelegate (body in
IControl.cpp, which is not under src/) stores the value and marks the control
dirty without outward notification, i.e. SetDirty with triggerAction = false
(spec section 4.1). -/
def SetValueFromDelegate (c : IControlState) (value : Rat) (valIdx : Int) :
    IControlState × List UIEvent :=
  SetDirty (SetValue c value valIdx) false kNoValIdx

/-- Modelled from the spec: IControl::SetValueFromUserInput (body in
IControl.cpp, which is not under src/) stores the value and marks the control
dirty via SetDirty(true, valIdx), addressing only the given value index
(spec section 4.1 and the doc comment at IControl.h line 228). -/
def SetValueFromUserInput (c : IControlState) (value : Rat) (valIdx : Int) :
    IControlState × List UIEvent :=
  SetDirty (SetValue c value valIdx) true valIdx

/-- IControl::OnEndAnimation (IControl.h lines 409-413): clears the animation
function, then calls SetDirty(false). -/
def OnEndAnimation (c : IControlState) : IControlState × List UIEvent :=
  SetDirty { c with mAnimationFunc := false } false kNoValIdx

/-- IControl::StartAnimation (IControl.h lines 416-420): records the start
timestamp (the current time, passed explicitly here) and the duration in
milliseconds.  The source performs no check on the duration. -/
def StartAnimation (c : IControlState) (now : Rat) (duration : Int) :
    IControlState :=
  { c with mAnimationStartTime := now, mAnimationDuration := duration }

/-- IControl::SetWantsMidi (IControl.h line 370): the body is
mWantsMidi = true, whatever the argument. -/
def SetWantsMidi (c : IControlState) (enable : Bool) : IControlState :=
  { c with mWantsMidi := true }

/-- IControl::GetWantsMidi (IControl.h line 373). -/
def GetWantsMidi (c : IControlState) : Bool := c.mWantsMidi

/-- Modelled from the spec: IRECT::Contains (IGraphicsStructs.h is not under
src/) is the point-in-rectangle test used by the default hit test
("point-in-targetBounds", spec section 4.4). -/
def Contains (r : IRECT) (x y : Rat) : Bool :=
  decide (r.L ≤ x ∧ x ≤ r.R ∧ r.T ≤ y ∧ y ≤ r.B)

/-- IControl::IsHit (IControl.h line 338): mTargetRECT.Contains(x, y). -/
def IsHit (c : IControlState) (x y : Rat) : Bool :=
  Contains c.mTargetRECT x y

/-- IControl::GetValIdxForPos (IControl.h line 215): 0 when the control owns
exactly one value, kNoValIdx otherwise, for every position. -/
def GetValIdxForPos (c : IControlState) (x y : Rat) : Int :=
  if c.mVals.length = 1 then 0 else kNoValIdx

/-- Steps performed by IControl::SetDelegate, in program order. -/
inductive AttachEvent where
  | assignDelegate
  | assignGraphics
  | onInit
  | onResize
  | onRescale
  deriving DecidableEq

/-- IControl::SetDelegate (IControl.h lines 381-388): assigns mDelegate, then
mGraphics, then calls OnInit(), OnResize(), OnRescale() in that order. -/
def SetDelegate (c : IControlState) : IControlState × List AttachEvent :=
  ({ c with mDelegate := true, mGraphics := true },
   [AttachEvent.assignDelegate, AttachEvent.assignGraphics,
    AttachEvent.onInit, AttachEvent.onResize, AttachEvent.onRescale])

/-- Predicate selecting the three lifecycle hooks among the attach steps. -/
def isLifecycleHook : AttachEvent → Bool
  | AttachEvent.onInit => true
  | AttachEvent.onResize => true
  | AttachEvent.onRescale => true
  | _ => false

/-- Color with alpha/red/green/blue components (IColor of the repository). -/
structure IColor where
  A : Int
  R : Int
  G : Int
  B : Int
  deriving DecidableEq

instance : Inhabited IColor := ⟨⟨0, 0, 0, 0⟩⟩

/-- Modelled from the spec: the nine color role indices (the EVColor enum of
IGraphicsStructs.h is not under src/), in the fixed order in which the
IVectorBase constructor adds them (IControl.h lines 590-609): background,
foreground, pressed, frame, highlight, shadow, three extras. -/
def kBG : Int := 0

/-- Foreground color role index. -/
def kFG : Int := 1

/-- Pressed color role index. -/
def kPR : Int := 2

/-- Frame color role index. -/
def kFR : Int := 3

/-- Highlight color role index. -/
def kHL : Int := 4

/-- Shadow color role index. -/
def kSH : Int := 5

/-- Extra color role index 1. -/
def kX1 : Int := 6

/-- Extra color role index 2. -/
def kX2 : Int := 7

/-- Extra color role index 3. -/
def kX3 : Int := 8

/-- State of an IVectorBase (IControl.h lines 554-751): the stored color list
and the style flags that steer DrawVectorButton. -/
structure IVectorBaseState where
  mColors : List IColor
  mDrawFrame : Bool
  mDrawShadows : Bool
  mEmboss : Bool
  deriving DecidableEq

/-- IVectorBase::GetColor (IControl.h lines 655-661): the stored color at
colorIdx when colorIdx < mColors.GetSize(), otherwise the color at index 0. -/
def GetColor (s : IVectorBaseState) (colorIdx : Int) : IColor :=
  if colorIdx < (s.mColors.length : Int) then (s.mColors.get? colorIdx.toNat).getD default
  else (s.mColors.get? 0).getD default

/-- One drawing primitive invocation on the graphics context, as issued by
IVectorBase::DrawVectorButton / DrawSplash; geometry arguments are elided,
color arguments are kept. -/
inductive DrawOp where
  | fillRect (color : IColor)
  | fillRoundRect (color : IColor)
  | pathRect
  | pathFill (color : IColor)
  | fillCircle (color : IColor)
  | drawRoundRect (color : IColor)
  deriving DecidableEq

/-- IVectorBase::DrawSplash (IControl.h lines 693-698): fills a circle with
the highlight color at the recorded mouse-down point. -/
def DrawSplash (s : IVectorBaseState) : List DrawOp :=
  [DrawOp.fillCircle (GetColor s kHL)]

/-- IVectorBase::DrawVectorButton (IControl.h lines 700-738): the sequence of
drawing primitives it issues, in program order.  hasAnimationFunc stands for
mControl->GetAnimationFunction() being non-null. -/
def DrawVectorButton (s : IVectorBaseState)
    (hasAnimationFunc pressed mouseOver : Bool) : List DrawOp :=
  [DrawOp.fillRect (GetColor s kBG)] ++
  (if pressed then
    [DrawOp.fillRoundRect (GetColor s kPR)] ++
      (if s.mDrawShadows && s.mEmboss then
        [DrawOp.pathRect, DrawOp.pathRect, DrawOp.pathFill (GetColor s kSH)]
      else [])
  else
    (if s.mDrawShadows && !s.mEmboss then
      [DrawOp.fillRoundRect (GetColor s kSH)]
    else []) ++
    [DrawOp.fillRoundRect (GetColor s kFG)]) ++
  (if mouseOver then [DrawOp.fillRoundRect (GetColor s kHL)] else []) ++
  (if hasAnimationFunc then DrawSplash s else []) ++
  (if s.mDrawFrame then [DrawOp.drawRoundRect (GetColor s kFR)] else [])

/-- Drawing order stated by claim C8, word for word: background fill, drop
shadow only when shadows are on and emboss is off and unpressed, then the
pressed- or foreground-color handle fill, hover highlight, splash, frame. -/
def ClaimedButtonOps (s : IVectorBaseState)
    (hasAnimationFunc pressed mouseOver : Bool) : List DrawOp :=
  [DrawOp.fillRect (GetColor s kBG)] ++
  (if s.mDrawShadows && !s.mEmboss && !pressed then
    [DrawOp.fillRoundRect (GetColor s kSH)]
  else []) ++
  [DrawOp.fillRoundRect (GetColor s (if pressed then kPR else kFG))] ++
  (if mouseOver then [DrawOp.fillRoundRect (GetColor s kHL)] else []) ++
  (if hasAnimationFunc then [DrawOp.fillCircle (GetColor s kHL)] else []) ++
  (if s.mDrawFrame then [DrawOp.drawRoundRect (GetColor s kFR)] else [])

/-- Drawing order of claim C8 amended minimally: when pressed with shadows on
and emboss on, an inner shadow (two path rects and a shadow-color path fill)
follows the pressed fill immediately; everything else as the claim states. -/
def AmendedButtonOps (s : IVectorBaseState)
    (hasAnimationFunc pressed mouseOver : Bool) : List DrawOp :=
  [DrawOp.fillRect (GetColor s kBG)] ++
  (if s.mDrawShadows && !s.mEmboss && !pressed then
    [DrawOp.fillRoundRect (GetColor s kSH)]
  else []) ++
  [DrawOp.fillRoundRect (GetColor s (if pressed then kPR else kFG))] ++
  (if s.mDrawShadows && s.mEmboss && pressed then
    [DrawOp.pathRect, DrawOp.pathRect, DrawOp.pathFill (GetColor s kSH)]
  else []) ++
  (if mouseOver then [DrawOp.fillRoundRect (GetColor s kHL)] else []) ++
  (if hasAnimationFunc then [DrawOp.fillCircle (GetColor s kHL)] else []) ++
  (if s.mDrawFrame then [DrawOp.drawRoundRect (GetColor s kFR)] else [])

/-! Helper lemmas (shared across several claims). -/

/-- Reading back the element just written by List.set. -/
theorem get?_set_self {α : Type} (l : List α) (n : Nat) (a : α)
    (h : n < l.length) : (l.set n a).get? n = some a := by
  induction l generalizing n with
  | nil => simp at h
  | cons x xs ih =>
    cases n with
    | zero => rfl
    | succ m =>
      simp only [List.set, List.get?]
      exact ih m (by simpa using h)

/-- An in-range index yields a stored element that is a member of the list. -/
theorem get?_some_mem {α : Type} (l : List α) (n : Nat)
    (h : n < l.length) : ∃ a, l.get? n = some a ∧ a ∈ l := by
  induction l generalizing n with
  | nil => simp at h
  | cons x xs ih =>
    cases n with
    | zero => exact ⟨x, rfl, by simp⟩
    | succ m =>
      obtain ⟨a, ha, hmem⟩ := ih m (by simpa using h)
      exact ⟨a, ha, by simp [hmem]⟩

/-- List.getD expressed through List.get?. -/
theorem getD_eq_get?_getD {α : Type} [Inhabited α] (l : List α) (n : Nat) :
    l.getD n default = (l.get? n).getD default := by
  induction l generalizing n with
  | nil => rfl
  | cons x xs ih => cases n with
    | zero => rfl
    | succ m => exact ih m

/-- Flattening a list of singletons is mapping. -/
theorem flatten_map_eq_map {β γ : Type} (l : List β) (f : β → List γ) (g : β → γ)
    (h : ∀ v ∈ l, f v = [g v]) : (l.map f).flatten = l.map g := by
  induction l with
  | nil => rfl
  | cons x xs ih =>
    simp only [List.map_cons, List.flatten_cons, h x (by simp)]
    rw [ih (fun v hv => h v (by simp [hv]))]
    rfl

/-! Concrete control states used by counterexamples and witnesses. -/

/-- Concrete control for claim C3: animating, currently clean. -/
def cexC3state : IControlState :=
  { mTargetRECT := ⟨0, 0, 10, 10⟩
    mVals := [⟨kNoParameter, 0⟩]
    mDirty := false
    mWantsMidi := false
    mActionFunc := false
    mAnimationFunc := true
    mAnimationStartTime := 0
    mAnimationDuration := 100
    mDelegate := true
    mGraphics := true }

/-- C3 (counterexample): on a concrete animating control that is clean, the
default OnEndAnimation leaves the dirty flag true, not false as the claim
states — SetDirty(false) always sets the control dirty. -/
theorem onEndAnimation_dirty_cex :
    ¬ ((OnEndAnimation cexC3state).1.mDirty = false) := by decide

/-- C3 (amended): after the default OnEndAnimation, the animation function is
cleared and the dirty flag is TRUE (SetDirty(false) marks the control for
redraw without triggering the action); no outward event is emitted. -/
theorem onEndAnimation_clears_and_dirties (c : IControlState) :
    (OnEndAnimation c).1.mAnimationFunc = false ∧
    (OnEndAnimation c).1.mDirty = true ∧
    (OnEndAnimation c).2 = [] :=
  ⟨rfl, rfl, rfl⟩

/-- Concrete control for claim C5. -/
def cexC5state : IControlState :=
  { mTargetRECT := ⟨0, 0, 10, 10⟩
    mVals := [⟨kNoParameter, 0⟩]
    mDirty := true
    mWantsMidi := false
    mActionFunc := false
    mAnimationFunc := true
    mAnimationStartTime := 0
    mAnimationDuration := 250
    mDelegate := true
    mGraphics := true }

/-- C5 (counterexample): StartAnimation with the non-positive duration -5
does not fail: it silently records -5 as the animation duration, contradicting
the claimed assertion on duration ≤ 0. -/
theorem startAnimation_silently_records_cex :
    (StartAnimation cexC5state 0 (-5)).mAnimationDuration = -5 := rfl

/-- C5 (amended): StartAnimation performs no precondition check; for any
duration ≤ 0 it records the start time and the non-positive duration and
leaves the rest of the control state unchanged. -/
theorem startAnimation_records_nonpositive (c : IControlState) (now : Rat)
    (duration : Int) (h : duration ≤ 0) :
    (StartAnimation c now duration).mAnimationDuration = duration ∧
    (StartAnimation c now duration).mAnimationStartTime = now ∧
    (StartAnimation c now duration).mVals = c.mVals ∧
    (StartAnimation c now duration).mDirty = c.mDirty ∧
    (StartAnimation c now duration).mAnimationFunc = c.mAnimationFunc :=
  ⟨rfl, rfl, rfl, rfl, rfl⟩

/-- C5 (witness): the amended theorem applied at the concrete control and
duration -5. -/
theorem startAnimation_records_nonpositive_witness :
    (-5 : Int) ≤ 0 ∧
    ((StartAnimation cexC5state 0 (-5)).mAnimationDuration = -5 ∧
     (StartAnimation cexC5state 0 (-5)).mAnimationStartTime = 0 ∧
     (StartAnimation cexC5state 0 (-5)).mVals = cexC5state.mVals ∧
     (StartAnimation cexC5state 0 (-5)).mDirty = cexC5state.mDirty ∧
     (StartAnimation cexC5state 0 (-5)).mAnimationFunc = cexC5state.mAnimationFunc) :=
  ⟨by decide, startAnimation_records_nonpositive cexC5state 0 (-5) (by decide)⟩

/-- C6: attaching a control via SetDelegate assigns the delegate and graphics
references first and then fires the lifecycle hooks OnInit, OnResize,
OnRescale, in that fixed order, each exactly once. -/
theorem setDelegate_lifecycle_order (c : IControlState) :
    (SetDelegate c).2 =
      [AttachEvent.assignDelegate, AttachEvent.assignGraphics] ++
        [AttachEvent.onInit, AttachEvent.onResize, AttachEvent.onRescale] ∧
    (SetDelegate c).2.filter isLifecycleHook =
      [AttachEvent.onInit, AttachEvent.onResize, AttachEvent.onRescale] ∧
    (SetDelegate c).1.mDelegate = true ∧
    (SetDelegate c).1.mGraphics = true :=
  ⟨rfl, rfl, rfl, rfl⟩

/-- C7: the default hit test succeeds exactly when the point lies in the
target bounds, and the default GetValIdxForPos returns 0 for every position
when the control owns exactly one value and kNoValIdx otherwise. -/
theorem isHit_and_valIdxForPos (c : IControlState) (x y : Rat) :
    (IsHit c x y = true ↔
      (c.mTargetRECT.L ≤ x ∧ x ≤ c.mTargetRECT.R ∧
       c.mTargetRECT.T ≤ y ∧ y ≤ c.mTargetRECT.B)) ∧
    GetValIdxForPos c x y = (if NVals c = 1 then 0 else kNoValIdx) := by
  refine ⟨?_, rfl⟩
  simp [IsHit, Contains]

/-- C9: SetWantsMidi ignores its boolean argument; after SetWantsMidi(false)
the control still reports GetWantsMidi() = true, and the two possible calls
produce identical states, so the flag can never be cleared by this setter. -/
theorem setWantsMidi_always_true (c : IControlState) (enable : Bool) :
    GetWantsMidi (SetWantsMidi c enable) = true ∧
    SetWantsMidi c false = SetWantsMidi c true :=
  ⟨rfl, rfl⟩

/-- Shared helper: reading back a value just stored by SetValue gives the
clamped value. -/
theorem getValue_setValue (c : IControlState) (v : Rat) (i : Int)
    (h0 : 0 ≤ i) (hN : i.toNat < NVals c) :
    GetValue (SetValue c v i) i.toNat = Clip v 0 1 := by
  obtain ⟨t, ht, -⟩ := get?_some_mem c.mVals i.toNat hN
  unfold GetValue SetValue valAt
  rw [if_pos h0, ht]
  simp only []
  rw [get?_set_self _ _ _ hN]
  rfl

/-- Shared helper: SetValue leaves the dirty flag untouched. -/
theorem setValue_mDirty (c : IControlState) (v : Rat) (i : Int) :
    (SetValue c v i).mDirty = c.mDirty := by
  unfold SetValue
  cases valAt c i <;> rfl

/-- C4: for every control and valid value index, SetValue stores the value
clamped to [0,1] (read back by GetValue) and does not itself change the dirty
flag; its return type carries no event trace, so it notifies nobody. -/
theorem setValue_clamps_quietly (c : IControlState) (v : Rat) (i : Int)
    (h0 : 0 ≤ i) (hN : i.toNat < NVals c) :
    GetValue (SetValue c v i) i.toNat = Clip v 0 1 ∧
    (SetValue c v i).mDirty = c.mDirty :=
  ⟨getValue_setValue c v i h0 hN, setValue_mDirty c v i⟩

/-- Concrete two-value control used by the C4 witness. -/
def wC4state : IControlState :=
  { mTargetRECT := ⟨0, 0, 10, 10⟩
    mVals := [⟨3, 0⟩, ⟨4, (1 : Rat) / 4⟩]
    mDirty := false
    mWantsMidi := false
    mActionFunc := true
    mAnimationFunc := false
    mAnimationStartTime := 0
    mAnimationDuration := 0
    mDelegate := true
    mGraphics := true }

/-- C4 (witness): the theorem applied at value 2 (clamped to 1) and index 1. -/
theorem setValue_clamps_quietly_witness :
    (0 : Int) ≤ 1 ∧ (1 : Int).toNat < NVals wC4state ∧
    (GetValue (SetValue wC4state 2 1) (1 : Int).toNat = Clip 2 0 1 ∧
     (SetValue wC4state 2 1).mDirty = wC4state.mDirty) :=
  ⟨by decide, by decide, setValue_clamps_quietly wC4state 2 1 (by decide) (by decide)⟩

/-- Predicate selecting the outward notifications (to the parameter owner)
among the events a control emits. -/
def isParamNotification : UIEvent → Bool
  | UIEvent.notifyParam _ _ => true
  | UIEvent.actionFunc => false

/-- Shared helper: the events of SetDirty(true, i) at a single valid value
index i holding the tuple t. -/
theorem setDirty_single_events (c : IControlState) (i : Int) (h0 : 0 ≤ i)
    (t : ParamTuple) (ht : c.mVals.get? i.toNat = some t) :
    (SetDirty c true i).2 =
      (if kNoParameter < t.idx then [UIEvent.notifyParam t.idx t.value] else []) ++
      (if c.mActionFunc then [UIEvent.actionFunc] else []) := by
  have hki : kNoValIdx < i := lt_of_lt_of_le (by decide) h0
  show ForValIdx { c with mDirty := true } i
      (NotifyParamIfLinked { c with mDirty := true }) ++
      (if ({ c with mDirty := true } : IControlState).mActionFunc then
        [UIEvent.actionFunc] else []) = _
  unfold ForValIdx NotifyParamIfLinked valAt
  rw [if_pos hki, if_pos h0]
  rw [show ({ c with mDirty := true } : IControlState).mVals = c.mVals from rfl, ht]

/-- Concrete control for claim C2: its single value is not linked to any
parameter, and no action function is attached. -/
def cexC2state : IControlState :=
  { mTargetRECT := ⟨0, 0, 10, 10⟩
    mVals := [⟨kNoParameter, 0⟩]
    mDirty := false
    mWantsMidi := false
    mActionFunc := false
    mAnimationFunc := false
    mAnimationStartTime := 0
    mAnimationDuration := 0
    mDelegate := true
    mGraphics := true }

/-- C2 (counterexample): on a control whose value index 0 is not linked to a
parameter, SetValueFromUserInput(1/2, 0) emits no outward notification at all,
refuting the claim that it always triggers one. -/
theorem setValueFromUserInput_unlinked_cex :
    (SetValueFromUserInput cexC2state ((1 : Rat) / 2) 0).2 = [] := by decide

/-- C2 (amended): for every control and valid value index,
SetValueFromDelegate stores the clamped value and marks the control dirty
while emitting no event at all, whereas SetValueFromUserInput stores the
clamped value, marks dirty, and emits an outward notification for the
addressed value index exactly when that index is linked to a parameter (and
none otherwise, the addressed index being the only one notified). -/
theorem setValueFromDelegate_vs_userInput (c : IControlState) (v : Rat)
    (i : Int) (h0 : 0 ≤ i) (hN : i.toNat < NVals c) :
    (SetValueFromDelegate c v i).2 = [] ∧
    (SetValueFromDelegate c v i).1.mDirty = true ∧
    GetValue (SetValueFromDelegate c v i).1 i.toNat = Clip v 0 1 ∧
    (SetValueFromUserInput c v i).1.mDirty = true ∧
    GetValue (SetValueFromUserInput c v i).1 i.toNat = Clip v 0 1 ∧
    ((SetValueFromUserInput c v i).2.filter isParamNotification =
      if kNoParameter < GetParamIdx c i.toNat then
        [UIEvent.notifyParam (GetParamIdx c i.toNat) (Clip v 0 1)]
      else []) := by
  obtain ⟨t, ht, -⟩ := get?_some_mem c.mVals i.toNat hN
  have hset : (SetValue c v i).mVals =
      c.mVals.set i.toNat { t with value := Clip v 0 1 } := by
    unfold SetValue valAt
    rw [if_pos h0, ht]
  have hget : (SetValue c v i).mVals.get? i.toNat =
      some { t with value := Clip v 0 1 } := by
    rw [hset]
    exact get?_set_self _ _ _ hN
  have hgetval : ∀ b : Bool,
      GetValue { SetValue c v i with mDirty := b } i.toNat = Clip v 0 1 := by
    intro b
    unfold GetValue
    rw [show ({ SetValue c v i with mDirty := b } : IControlState).mVals =
        (SetValue c v i).mVals from rfl, hget]
    rfl
  have hpidx : GetParamIdx c i.toNat = t.idx := by
    unfold GetParamIdx
    rw [ht]
    rfl
  refine ⟨rfl, rfl, hgetval true, rfl, hgetval true, ?_⟩
  have hevents := setDirty_single_events (SetValue c v i) i h0
    { t with value := Clip v 0 1 } hget
  have hact : (SetValue c v i).mActionFunc = c.mActionFunc := by
    unfold SetValue
    cases valAt c i <;> rfl
  show ((SetDirty (SetValue c v i) true i).2).filter isParamNotification = _
  rw [hevents, hact, List.filter_append, hpidx]
  by_cases hl : kNoParameter < t.idx <;>
    cases hcact : c.mActionFunc <;>
      simp [hl, isParamNotification]

/-- Concrete control for the C2 witness: one value linked to parameter 7. -/
def wC2state : IControlState :=
  { mTargetRECT := ⟨0, 0, 10, 10⟩
    mVals := [⟨7, 0⟩]
    mDirty := false
    mWantsMidi := false
    mActionFunc := true
    mAnimationFunc := false
    mAnimationStartTime := 0
    mAnimationDuration := 0
    mDelegate := true
    mGraphics := true }

/-- C2 (witness): the amended theorem applied at the linked control, value
3/4 and index 0. -/
theorem setValueFromDelegate_vs_userInput_witness :
    (0 : Int) ≤ 0 ∧ (0 : Int).toNat < NVals wC2state ∧
    ((SetValueFromDelegate wC2state ((3 : Rat) / 4) 0).2 = [] ∧
     (SetValueFromDelegate wC2state ((3 : Rat) / 4) 0).1.mDirty = true ∧
     GetValue (SetValueFromDelegate wC2state ((3 : Rat) / 4) 0).1 (0 : Int).toNat =
       Clip ((3 : Rat) / 4) 0 1 ∧
     (SetValueFromUserInput wC2state ((3 : Rat) / 4) 0).1.mDirty = true ∧
     GetValue (SetValueFromUserInput wC2state ((3 : Rat) / 4) 0).1 (0 : Int).toNat =
       Clip ((3 : Rat) / 4) 0 1 ∧
     ((SetValueFromUserInput wC2state ((3 : Rat) / 4) 0).2.filter isParamNotification =
       if kNoParameter < GetParamIdx wC2state (0 : Int).toNat then
         [UIEvent.notifyParam (GetParamIdx wC2state (0 : Int).toNat)
           (Clip ((3 : Rat) / 4) 0 1)]
       else [])) :=
  ⟨by decide, by decide,
   setValueFromDelegate_vs_userInput wC2state ((3 : Rat) / 4) 0 (by decide) (by decide)⟩

/-- C1: on any control whose N values are all linked to parameters,
SetDirty(true, kNoValIdx) — the all-values sentinel the spec calls
kAllValues — emits exactly one outward notification per value index, in
ascending index order 0, 1, ..., N-1, each carrying the current value,
followed by exactly one action-function invocation when an action function is
attached and by none otherwise. -/
theorem setDirty_allValues_notifies (c : IControlState)
    (hlinked : ∀ t ∈ c.mVals, kNoParameter < t.idx) :
    (SetDirty c true kNoValIdx).2 =
      ((List.range (NVals c)).map
        (fun v => UIEvent.notifyParam (GetParamIdx c v) (GetValue c v))) ++
      (if c.mActionFunc then [UIEvent.actionFunc] else []) := by
  have hbase : (SetDirty c true kNoValIdx).2 =
      ((List.range (NVals c)).map
        (fun v => NotifyParamIfLinked { c with mDirty := true } (Int.ofNat v))).flatten ++
      (if c.mActionFunc then [UIEvent.actionFunc] else []) := by
    show ForValIdx { c with mDirty := true } kNoValIdx
        (NotifyParamIfLinked { c with mDirty := true }) ++
        (if ({ c with mDirty := true } : IControlState).mActionFunc then
          [UIEvent.actionFunc] else []) = _
    unfold ForValIdx
    rw [if_neg (by decide : ¬ (kNoValIdx < kNoValIdx))]
    rfl
  rw [hbase]
  congr 1
  apply flatten_map_eq_map
  intro v hv
  have hvN : v < c.mVals.length := List.mem_range.mp hv
  obtain ⟨t, ht, hmem⟩ := get?_some_mem c.mVals v hvN
  have hidx := hlinked t hmem
  unfold NotifyParamIfLinked valAt
  rw [if_pos (show 0 ≤ Int.ofNat v by exact Int.ofNat_nonneg v)]
  rw [show (Int.ofNat v).toNat = v from rfl]
  rw [show ({ c with mDirty := true } : IControlState).mVals = c.mVals from rfl, ht]
  simp only [if_pos hidx]
  unfold GetParamIdx GetValue
  rw [ht]
  rfl

/-- Concrete control for the C1 witness: two values linked to parameters 5
and 6, action function attached. -/
def wC1state : IControlState :=
  { mTargetRECT := ⟨0, 0, 10, 10⟩
    mVals := [⟨5, (1 : Rat) / 4⟩, ⟨6, (1 : Rat) / 2⟩]
    mDirty := false
    mWantsMidi := false
    mActionFunc := true
    mAnimationFunc := false
    mAnimationStartTime := 0
    mAnimationDuration := 0
    mDelegate := true
    mGraphics := true }

/-- C1 (witness): the theorem applied at the concrete two-value control. -/
theorem setDirty_allValues_notifies_witness :
    (∀ t ∈ wC1state.mVals, kNoParameter < t.idx) ∧
    (SetDirty wC1state true kNoValIdx).2 =
      ((List.range (NVals wC1state)).map
        (fun v => UIEvent.notifyParam (GetParamIdx wC1state v) (GetValue wC1state v))) ++
      (if wC1state.mActionFunc then [UIEvent.actionFunc] else []) :=
  ⟨by decide, setDirty_allValues_notifies wC1state (by decide)⟩

/-- Concrete IVectorBase state for claim C8: shadows on, emboss on (nine
distinct colors, frame off). -/
def cexC8state : IVectorBaseState :=
  { mColors := [⟨255, 0, 0, 0⟩, ⟨255, 10, 10, 10⟩, ⟨255, 20, 20, 20⟩,
                ⟨255, 30, 30, 30⟩, ⟨255, 40, 40, 40⟩, ⟨255, 50, 50, 50⟩,
                ⟨255, 60, 60, 60⟩, ⟨255, 70, 70, 70⟩, ⟨255, 80, 80, 80⟩]
    mDrawFrame := false
    mDrawShadows := true
    mEmboss := true }

/-- C8 (counterexample): with shadows on, emboss on and the button pressed,
DrawVectorButton emits an inner shadow (two path rects and a shadow-color path
fill) right after the pressed fill, so its operation sequence is not the one
the claim enumerates. -/
theorem drawVectorButton_claimed_cex :
    DrawVectorButton cexC8state false true false ≠
      ClaimedButtonOps cexC8state false true false := by decide

/-- C8 (amended): DrawVectorButton emits exactly the claimed sequence —
background fill, drop shadow (only when shadows on, emboss off, unpressed),
pressed- or foreground-color handle fill, hover highlight (only on
mouse-over), splash (only while an animation function is set), frame stroke
last (only when framed, hence topmost) — except that when pressed with
shadows on and emboss on, an inner shadow immediately follows the pressed
fill. -/
theorem drawVectorButton_order (s : IVectorBaseState)
    (hasAnimationFunc pressed mouseOver : Bool) :
    DrawVectorButton s hasAnimationFunc pressed mouseOver =
      AmendedButtonOps s hasAnimationFunc pressed mouseOver := by
  rcases s with ⟨cols, df, ds, em⟩
  cases df <;> cases ds <;> cases em <;>
    cases hasAnimationFunc <;> cases pressed <;> cases mouseOver <;> rfl

/-- Concrete IVectorBase state for the C10 witness: two stored colors. -/
def wC10state : IVectorBaseState :=
  { mColors := [⟨255, 1, 2, 3⟩, ⟨255, 4, 5, 6⟩]
    mDrawFrame := true
    mDrawShadows := true
    mEmboss := false }

/-- C10: GetColor is total over color role indices: an in-range index returns
the stored color at that index, and any index at or beyond the number of
stored colors falls back to the color stored at index 0 (the background
role). -/
theorem getColor_total (s : IVectorBaseState) (colorIdx : Int)
    (hne : 0 < s.mColors.length) (hnn : 0 ≤ colorIdx) :
    (colorIdx < (s.mColors.length : Int) →
      GetColor s colorIdx = s.mColors.getD colorIdx.toNat default) ∧
    ((s.mColors.length : Int) ≤ colorIdx →
      GetColor s colorIdx = s.mColors.getD 0 default) := by
  constructor
  · intro h
    unfold GetColor
    rw [if_pos h, getD_eq_get?_getD]
  · intro h
    unfold GetColor
    rw [if_neg (not_lt.mpr h), getD_eq_get?_getD]

/-- C10 (witness): the theorem applied at the two-color state, at the
out-of-range role index 5 and the in-range role index 1. -/
theorem getColor_total_witness :
    0 < wC10state.mColors.length ∧ (0 : Int) ≤ 5 ∧
    (((5 : Int) < (wC10state.mColors.length : Int) →
      GetColor wC10state 5 = wC10state.mColors.getD (5 : Int).toNat default) ∧
     ((wC10state.mColors.length : Int) ≤ 5 →
      GetColor wC10state 5 = wC10state.mColors.getD 0 default)) :=
  ⟨by decide, by decide, getColor_total wC10state 5 (by decide) (by decide)⟩
